import Mathlib

/-
Verification of the shim-orchestration core of ge3t_conformal_shim.

Shallow embedding of `src/shimTool/Tool.py` (class `Tool`) and of the
asset-calibration macro of `ExsiGui.py` (class `ExsiGui`).

Modelling conventions:
- A B0 map (3-D numpy volume) is a structure carrying its extents and a data
  function; a voxel value of `none` stands for numpy NaN (NaN-propagating
  arithmetic is modelled on `Option ℚ`).
- numpy floats are modelled as ℚ; float rounding is not at issue in any claim.
- Python exceptions are modelled with `Except PyErr`; a function that cannot
  raise returns its value directly.
- The two protocol clients (`exsi_client.py`, `shim_client.py`) and the
  field-map engine (`shimCompute.py`) are not part of the sources; their calls
  are modelled either from the spec (definitions marked `Modelled from the
  spec:`) or as oracle fields of an environment record `Env` (scan outcomes,
  solver results, files read from disk).
- Completion signals (threading.Event) are Boolean fields of the tool state;
  an external arrival of a signal during a timed wait is an oracle answer.
- Logging to files and the GUI trigger objects are external collaborators;
  log emissions are modelled only where a claim mentions them (the guard
  wrappers), as `Effect.log` values.
- Each macro procedure spawns a kickoff worker thread that only enqueues
  device commands and (in `queueTwoFgreSequences`) toggles
  `autoPrescanDone`/`prescanDone`; the caller thread never reads those fields
  after the kickoff, so the worker's state effect is applied synchronously at
  the kickoff point and its command stream is not modelled.
-/

/-- Python exception kinds that the embedded code can raise. -/
inductive PyErr where
  | typeError
  | indexError
  | keyError
  | valueError
  | attributeError
  | unboundLocal
  deriving DecidableEq, Repr

/-- A boolean voxel predicate (readout index, slice index, phase index).
Boolean volumes are modelled as total functions; extents travel with the
`B0Map` they were built from. -/
def Mask : Type := Nat → Nat → Nat → Bool

/-- A 3-D scalar volume in Hz (axes readout × slice × phase); `none` = NaN. -/
structure B0Map where
  nr : Nat
  ns : Nat
  nph : Nat
  data : Nat → Nat → Nat → Option ℚ

/-- NaN-propagating addition on voxel values. -/
def optAdd : Option ℚ → Option ℚ → Option ℚ
  | some a, some b => some (a + b)
  | _, _ => none

/-- NaN-propagating subtraction on voxel values. -/
def optSub : Option ℚ → Option ℚ → Option ℚ
  | some a, some b => some (a - b)
  | _, _ => none

/-- Scaling of a voxel value by a finite coefficient (NaN-propagating). -/
def optScale (c : ℚ) : Option ℚ → Option ℚ
  | some a => some (c * a)
  | none => none

/-- Modelled from the spec: `maskOneSlice` of the missing `shimCompute.py` —
"the final mask at slice i": the mask restricted to slice `i`, false on every
other slice. -/
def maskOneSlice (m : Mask) (i : Nat) : Mask :=
  fun r s p => if s = i then m r s p else false

/-- Pointwise `np.logical_or` of two boolean volumes. -/
def maskOr (a b : Mask) : Mask :=
  fun r s p => a r s p || b r s p

/-- Modelled from the spec: `createMask` of the missing `shimCompute.py` —
"boolean AND of the ROI volume and the non-NaN region common to background and
every basis map"; unset (`None`) basis entries impose no constraint (the tool
calls it with the initial all-`None` basis list before any basis scan). -/
def createMask (bg : B0Map) (basis : List (Option B0Map)) (roi : Mask) : Mask :=
  fun r s p =>
    roi r s p && (bg.data r s p).isSome &&
      basis.all (fun ob =>
        match ob with
        | some b => (b.data r s p).isSome
        | none => true)

/-- Modelled from the spec: `subtractBackground` of the missing
`shimCompute.py` — "elementwise raw[i] − background, NaN-propagating". -/
def subtractBackground (bg : B0Map) (raws : List B0Map) : List B0Map :=
  raws.map fun rw =>
    { rw with data := fun r s p => optSub (rw.data r s p) (bg.data r s p) }

/-- The solve-mask construction of `Tool.computeShimCurrents` (Tool.py
331-335): start from the final mask restricted to slice `i`, union the
preceding slice when `i > 0` and the following slice when `i < ns - 1`. -/
def solveMaskForSlice (fm : Mask) (ns i : Nat) : Mask :=
  let m0 := maskOneSlice fm i
  let m1 := if 0 < i then maskOr m0 (maskOneSlice fm (i - 1)) else m0
  if i < ns - 1 then maskOr m1 (maskOneSlice fm (i + 1)) else m1

/-- Entry scaling of `Tool.getSolutionsToApply`: entry 0 (center-frequency
offset) is unchanged, entries 1..3 (gradients) are scaled by the gradient
calibration strength, entries from 4 on (loop currents) by the loop
calibration current. -/
def scaleEntry (g c : ℚ) (j : Nat) (x : ℚ) : ℚ :=
  if j = 0 then x else if j < 4 then x * g else x * c

/-- Apply `scaleEntry` to a list starting at index `j`. -/
def scaleFrom (g c : ℚ) : Nat → List ℚ → List ℚ
  | _, [] => []
  | j, x :: xs => scaleEntry g c j x :: scaleFrom g c (j + 1) xs

/-- The per-slice value conversion of `Tool.getSolutionsToApply` (Tool.py
436-443), acting on one solution vector. The Python mutates a copy in place
over `range(1, 4)` and `range(4, len)`; for vectors of length ≥ 4 this is the
same map (the solver only produces vectors of length numLoops + 4; on shorter
vectors the Python would raise IndexError). -/
def scaleSolution (g c : ℚ) (v : List ℚ) : List ℚ :=
  scaleFrom g c 0 v

/-- `Tool.getSolutionsToApply` (Tool.py 430-443) as a function of the
solutions list: null slices stay null, solved slices get the scaled copy. -/
def getSolutionsToApply (sols : List (Option (List ℚ))) (g c : ℚ) :
    List (Option (List ℚ)) :=
  sols.map (Option.map (scaleSolution g c))

/-- Device and scanner commands emitted by the orchestrator (structured
renderings of the textual protocols). -/
inductive ShimCmd where
  | loadProtocol (name : String)
  | selTask
  | actTask
  | setCV (name : String) (value : ℚ)
  | patientTable
  | prescan (auto : Bool)
  | scan
  | setCF (hz : ℤ)
  | setShimValues (x y z : ℤ)
  | shimZero
  | setCurrent (channel : Nat) (amps : ℚ)
  deriving DecidableEq, Repr

/-- Observable effects of a macro procedure: a log line or a queued command. -/
inductive Effect where
  | log (msg : String)
  | cmd (c : ShimCmd)
  deriving DecidableEq, Repr

/-- Whether an effect is a log emission (and not a device command). -/
def Effect.isLog : Effect → Bool
  | .log _ => true
  | .cmd _ => false

/-- Oracle for one `countScansCompleted` run: `fail i` says a scan-failure
notification arrived before check `i`; `arrive i` gives the arrival time (in
seconds, within the 90-second window) of the images-ready signal during wait
`i`, or `none` when the signal is not raised within the window. -/
structure CountEnv where
  fail : Nat → Bool
  arrive : Nat → Option Nat

/-- The orchestrator state: connection/calibration flags, completion signals,
and the field-map/solution data of `Tool`. -/
structure ToolState where
  debugging : Bool
  exsiConnected : Bool
  shimConnected : Bool
  assetCalibrationDone : Bool
  autoPrescanDone : Bool
  noFailures : Bool
  imagesReady : Bool
  readyEvent : Bool
  prescanDone : Bool
  numLoops : Nat
  gradientCalStrength : ℚ
  loopCalCurrent : ℚ
  shimMode : Nat
  ogCenterFrequency : Option ℚ
  ogLinearGradients : Option (ℚ × ℚ × ℚ)
  backgroundB0Map : Option B0Map
  rawBasisB0maps : Option (List B0Map)
  basisB0maps : List (Option B0Map)
  expectedB0Map : Option B0Map
  shimmedB0Map : Option B0Map
  solutions : Option (List (Option (List ℚ)))
  solutionValuesToApply : Option (List (Option (List ℚ)))
  principleSols : Option (List ℚ)
  finalMask : Option Mask
  shimStats0 : Option (List (Option (List ℚ)))
  shimStats1 : Option (List (Option (List ℚ)))
  shimStats2 : Option (List (Option (List ℚ)))
  viewData0 : Option B0Map
  viewData1 : List (Option B0Map)
  viewData2 : List (Option B0Map)

/-- Oracle record for everything outside the orchestrator: the ROI mask, the
least-squares solver and statistics routines of the missing `shimCompute.py`,
the volumes read back from disk after each scan batch, and the scan-outcome
oracles for every blocking wait. -/
structure Env where
  roiMask : Mask
  solve : B0Map → List B0Map → Mask → ℚ → ℚ → Option (List ℚ)
  evalStats : List (Option ℚ) → List ℚ
  backgroundScan : B0Map
  rawBasisMaps : List B0Map
  freshB0 : Nat → B0Map
  latestImage : B0Map
  calArrive : Bool
  fgreArrive : Bool
  fieldmapCount : CountEnv
  basisCount : CountEnv
  evalCount : CountEnv
  shimmedCount : Nat → CountEnv

/-- `Tool.resetPrincipleSols` (Tool.py 279-284): the vector it stores —
zeros of length 4 + numLoops, entry 0 overwritten by the prescan center
frequency and entries 1..3 by the prescan linear gradients when known. -/
def principleVector (st : ToolState) : List ℚ :=
  let base := List.replicate (4 + st.numLoops) (0 : ℚ)
  let base :=
    match st.ogCenterFrequency with
    | some cf => base.set 0 cf
    | none => base
  match st.ogLinearGradients with
  | some (g1, g2, g3) => ((base.set 1 g1).set 2 g2).set 3 g3
  | none => base

/-- `Tool.resetPrincipleSols` mutates `self.principleSols` in place and falls
off the end of the function, so its Python return value is `None`: the second
component is that returned value. -/
def resetPrincipleSols (st : ToolState) : ToolState × Option (List ℚ) :=
  ({ st with principleSols := some (principleVector st) }, none)

/-- `Tool.resetShimSols` (Tool.py 286-292). -/
def resetShimSols (st : ToolState) : ToolState :=
  { st with
    solutions := none
    solutionValuesToApply := none
    shimStats0 := none
    shimStats1 := none
    shimStats2 := none
    expectedB0Map := none
    shimmedB0Map := none }

/-- The state-field initialization of `Tool.__init__` (Tool.py 82-146): all
maps, masks, solutions and stats unset, flags down, then line 122
`self.principleSols = self.resetPrincipleSols()` — which first stores the
zero vector through the mutation inside `resetPrincipleSols` and then
overwrites the attribute with the function's `None` return value.
The initial all-`None` raw-basis list is subsumed by the unset value `none`.
I/O (log files, client construction) is external and not modelled. -/
def toolInit (numLoops : Nat) (debugging : Bool) : ToolState :=
  let st0 : ToolState :=
    { debugging := debugging
      exsiConnected := false
      shimConnected := false
      assetCalibrationDone := false
      autoPrescanDone := false
      noFailures := true
      imagesReady := false
      readyEvent := false
      prescanDone := false
      numLoops := numLoops
      gradientCalStrength := 60
      loopCalCurrent := 1000
      shimMode := 0
      ogCenterFrequency := none
      ogLinearGradients := none
      backgroundB0Map := none
      rawBasisB0maps := none
      basisB0maps := List.replicate (numLoops + 3) none
      expectedB0Map := none
      shimmedB0Map := none
      solutions := none
      solutionValuesToApply := none
      principleSols := none
      finalMask := none
      shimStats0 := none
      shimStats1 := none
      shimStats2 := none
      viewData0 := none
      viewData1 := [none, none, none]
      viewData2 := List.replicate (numLoops + 3) none }
  let r := resetPrincipleSols st0
  { r.1 with principleSols := r.2 }

/-- A copy of a volume with the voxels outside the final mask set to NaN
(`toViewer[~finalMask] = np.nan` in `Tool.applyMask`). -/
def maskedCopy (fm : Mask) (v : B0Map) : B0Map :=
  { v with data := fun r s p => if fm r s p then v.data r s p else none }

/-- `Tool.applyMask` (Tool.py 251-269): pushes masked copies of the
background/expected/shimmed maps and of every set basis map to the viewer
slots, leaving the slot untouched when the corresponding map is unset.
Raises TypeError when `finalMask` is still `None` (numpy `~None`). -/
def applyMask (st : ToolState) : Except PyErr ToolState :=
  match st.finalMask with
  | none => .error .typeError
  | some fm =>
    let upd : Option B0Map → Option B0Map → Option B0Map := fun old mo =>
      match mo with
      | some m => some (maskedCopy fm m)
      | none => old
    .ok { st with
      viewData1 := [upd (st.viewData1.getD 0 none) st.backgroundB0Map,
                    upd (st.viewData1.getD 1 none) st.expectedB0Map,
                    upd (st.viewData1.getD 2 none) st.shimmedB0Map]
      viewData2 := st.viewData2.mapIdx fun i old =>
        upd old (st.basisB0maps.getD i none) }

/-- The values `map[mask]` selected by a boolean mask, flattened in numpy
C order (readout, slice, phase). -/
def maskedValues (v : B0Map) (m : Mask) : List (Option ℚ) :=
  List.flatten ((List.range v.nr).map fun r =>
    List.flatten ((List.range v.ns).map fun s =>
      (List.range v.nph).filterMap fun p =>
        if m r s p then some (v.data r s p) else none))

/-- `not np.isnan(map[mask]).all()`: some selected voxel is non-NaN. -/
def maskedAnyNonNaN (v : B0Map) (m : Mask) : Bool :=
  (maskedValues v m).any fun o => o.isSome

/-- The per-slice statistics row of `Tool.evaluateShimImages` for one map:
slice `j` gets statistics exactly when the mask restricted to slice `j`
selects a non-NaN voxel; the numerical statistics themselves come from the
external `evaluate` of `shimCompute.py` (oracle `env.evalStats`). -/
def statsForMap (env : Env) (ns : Nat) (fm : Mask) (v : B0Map) :
    List (Option (List ℚ)) :=
  (List.range ns).map fun j =>
    if maskedAnyNonNaN v (maskOneSlice fm j) then
      some (env.evalStats (maskedValues v (maskOneSlice fm j)))
    else none

/-- `Tool.evaluateShimImages` (Tool.py 375-386): recomputes the statistics
rows of every map that is set, leaving rows of unset maps untouched. Raises
AttributeError when the background is unset (`self.backgroundB0Map.shape`)
and TypeError when the final mask is unset. String-form stats
(`shimStatStrs`) duplicate the numerical ones and are not modelled. -/
def evaluateShimImages (env : Env) (st : ToolState) : Except PyErr ToolState :=
  match st.backgroundB0Map with
  | none => .error .attributeError
  | some bg =>
    match st.finalMask with
    | none => .error .typeError
    | some fm =>
      let s1 :=
        match st.expectedB0Map with
        | some m => some (statsForMap env bg.ns fm m)
        | none => st.shimStats1
      let s2 :=
        match st.shimmedB0Map with
        | some m => some (statsForMap env bg.ns fm m)
        | none => st.shimStats2
      .ok { st with
        shimStats0 := some (statsForMap env bg.ns fm bg)
        shimStats1 := s1
        shimStats2 := s2 }

/-- Lengths needed by the expected-map loop of `Tool.computeShimCurrents`
(Tool.py 350-357): it indexes `basisB0maps[j]` for `j < numLoops + 3` and
`solutions[i][j + 1]` for those `j`, so it raises IndexError unless the basis
list has at least numLoops + 3 maps and every solved slice has at least
numLoops + 4 entries. -/
def expectedLengthsOk (numLoops : Nat) (basis : List B0Map)
    (sols : List (Option (List ℚ))) : Bool :=
  decide (numLoops + 3 ≤ basis.length) &&
    sols.all fun s =>
      match s with
      | none => true
      | some v => decide (numLoops + 4 ≤ v.length)

/-- The expected (estimated shimmed) map of `Tool.computeShimCurrents`
(Tool.py 350-359): a copy of the background where each solved slice `s` gets
`background + solutions[s][0] + Σ_j solutions[s][j+1] · basis[j]` and each
unsolved slice is set to NaN; the `getD` defaults are never reached on the
lengths admitted by `expectedLengthsOk`. -/
def expectedFromSolutions (bg : B0Map) (basis : List B0Map) (numLoops : Nat)
    (sols : List (Option (List ℚ))) : B0Map :=
  { bg with data := fun r s p =>
      if s < sols.length then
        match sols.getD s none with
        | none => none
        | some v =>
          (List.range (numLoops + 3)).foldl
            (fun acc j =>
              optAdd acc
                (optScale (v.getD (j + 1) 0)
                  ((basis.getD j bg).data r s p)))
            (optAdd (bg.data r s p) (some (v.headD 0)))
      else bg.data r s p }

/-- The solutions list built by the per-slice loop of
`Tool.computeShimCurrents` (Tool.py 328-344): one external solver call per
slice of the background, against the three-slice solve mask. -/
def solveMasksSols (env : Env) (g c : ℚ) (bg : B0Map) (basis : List B0Map)
    (fm : Mask) : List (Option (List ℚ)) :=
  (List.range bg.ns).map fun i =>
    env.solve bg basis (solveMaskForSlice fm bg.ns i) g c

/-- `Tool.computeShimCurrents` (Tool.py 319-365): subtract the background
from the raw basis maps, recompute the final mask, solve each slice against
the three-slice solve mask, convert the solutions to applied values, and
build the expected map when at least one slice solved. Returns the success
flag of the Python method. Raises TypeError when the background or the raw
basis buffer is unset (numpy arithmetic on `None`). The external solver call
is the oracle `env.solve`. -/
def computeShimCurrents (env : Env) (st : ToolState) :
    Except PyErr (ToolState × Bool) :=
  match st.backgroundB0Map, st.rawBasisB0maps with
  | some bg, some raws =>
    let basis := subtractBackground bg raws
    let fm := createMask bg (basis.map some) env.roiMask
    let sols := solveMasksSols env st.gradientCalStrength st.loopCalCurrent
      bg basis fm
    let applied := getSolutionsToApply sols st.gradientCalStrength
      st.loopCalCurrent
    let st1 := { st with
      basisB0maps := basis.map some
      finalMask := some fm
      solutions := some sols
      solutionValuesToApply := some applied }
    if sols.any (fun s => s.isSome) then
      if expectedLengthsOk st.numLoops basis sols then
        match applyMask { st1 with
            expectedB0Map :=
              some (expectedFromSolutions bg basis st.numLoops sols) } with
        | .ok st2 => .ok (st2, true)
        | .error e => .error e
      else .error .indexError
    else .ok (st1, false)
  | _, _ => .error .typeError

/-- `Tool.computeShimmedB0Map` (Tool.py 367-373): read the freshly scanned
map (oracle argument `newMap`), allocate an all-NaN slice-wise map on first
use, write slice `idx` only, and push the masked view. -/
def computeShimmedB0Map (newMap : B0Map) (idx : Nat) (st : ToolState) :
    Except PyErr ToolState :=
  let base : B0Map :=
    match st.shimmedB0Map with
    | none => { newMap with data := fun _ _ _ => none }
    | some m => m
  let upd : B0Map :=
    { base with data := fun r s p =>
        if s = idx then newMap.data r s p else base.data r s p }
  applyMask { st with shimmedB0Map := some upd }

/-- `Tool.sendSyncedLoopSolution` (Tool.py 464-482). After reading the
principal offset and the applied solution value, line 471 executes
`current += solutionToApply + principleOffset` — an augmented assignment to
the never-initialized local `current`, so the method always raises
UnboundLocalError before queueing anything (the `ZeroOthers` recursion and
the send are unreachable, so they are not modelled; the `calibration`
override happens after the reads and before the raise and has no observable
effect). Indexing `solutionValuesToApply[sliceIdx]` with the default
`sliceIdx=None` raises TypeError first. -/
def sendSyncedLoopSolution (channel : Nat) (sliceIdx : Option Nat)
    (_calibration : Bool) (st : ToolState) :
    Except PyErr (ToolState × List Effect) :=
  match st.principleSols with
  | none => .error .typeError
  | some ps =>
    match ps[channel]? with
    | none => .error .indexError
    | some _ =>
      match st.solutionValuesToApply with
      | none => .error .typeError
      | some vals =>
        match sliceIdx with
        | none => .error .typeError
        | some si =>
          match vals[si]? with
          | none => .error .indexError
          | some none => .error .typeError
          | some (some v) =>
            match v[channel + 4]? with
            | none => .error .indexError
            | some _ => .error .unboundLocal

/-- One run of the wait loop of `Tool.countScansCompleted` (Tool.py 528-546):
at iteration `i` the loop first checks the no-failures flag (resetting it and
failing when a failure notification arrived), then blocks up to 90 seconds on
the images-ready signal, failing on timeout and clearing the signal on
success. The third component is the total blocked time in seconds. -/
def countLoop (e : CountEnv) : Nat → Nat → ToolState → Bool × ToolState × Nat
  | 0, _, st => (true, st, 0)
  | n + 1, i, st =>
    if st.noFailures && !(e.fail i) then
      match (if st.imagesReady then some 0 else e.arrive i) with
      | some t =>
        let r := countLoop e n (i + 1) { st with imagesReady := false }
        (r.1, r.2.1, min t 90 + r.2.2)
      | none => (false, st, 90)
    else (false, { st with noFailures := true }, 0)

/-- `Tool.countScansCompleted(n)`: `n` iterations of the wait loop starting
at scan 0; the final `transferScanData` is external file transfer and does
not touch the modelled state. -/
def countScansCompleted (e : CountEnv) (n : Nat) (st : ToolState) :
    Bool × ToolState × Nat :=
  countLoop e n 0 st

/-- Guard of the `requireExsiConnection` decorator (Tool.py 565-579): trips
when the scanner client is not connected and debugging is off. -/
def guardExsi (st : ToolState) : Bool :=
  !st.exsiConnected && !st.debugging

/-- Guard of the `requireShimConnection` decorator (Tool.py 548-563). -/
def guardShim (st : ToolState) : Bool :=
  !st.shimConnected && !st.debugging

/-- Guard of the `requireAssetCalibration` decorator (Tool.py 581-591). -/
def guardAsset (st : ToolState) : Bool :=
  !st.assetCalibrationDone && !st.debugging

/-- Log line of a tripped `requireExsiConnection` guard. -/
def msgExsiGuard : String := "EXSI Client Not Connected!"

/-- Log line of a tripped `requireShimConnection` guard. -/
def msgShimGuard : String := "SHIM Client Not Connected!"

/-- Log line of a tripped `requireAssetCalibration` guard. -/
def msgAssetGuard : String :=
  "Debug: Need to do calibration scan before running scan with ASSET."

/-- State effect of the kickoff worker's `queueTwoFgreSequences` (Tool.py
502-510): when no auto-prescan has been done yet it clears the prescan-done
signal and marks the auto-prescan as done. -/
def workerPrescanEffect (st : ToolState) : ToolState :=
  if st.autoPrescanDone then st
  else { st with prescanDone := false, autoPrescanDone := true }

/-- The state handed to `countScansCompleted` by
`Tool.doBasisCalibrationScans` (Tool.py 718-723): worker kicked off, shim
zeroed, the raw-basis buffer reset to all-unset, the images-ready signal
cleared. -/
def basisPreState (st : ToolState) : ToolState :=
  { workerPrescanEffect st with rawBasisB0maps := none, imagesReady := false }

/-- `Tool.doCalibrationScan` (Tool.py 595-609): behind the EXSI-connection
guard, a no-op when the asset calibration is already done; otherwise queue
the calibration protocol and scan, and on images-ready within 120 seconds set
the completion flag, clear the signal and pull the latest image. -/
def doCalibrationScan (env : Env) (st : ToolState) :
    Except PyErr (ToolState × List Effect) :=
  if guardExsi st then .ok (st, [Effect.log msgExsiGuard])
  else if !st.assetCalibrationDone then
    let cmds := [Effect.cmd (ShimCmd.loadProtocol ("ConformalShimCalibration4")),
                 Effect.cmd ShimCmd.selTask, Effect.cmd ShimCmd.actTask,
                 Effect.cmd ShimCmd.patientTable, Effect.cmd ShimCmd.scan]
    if st.imagesReady || env.calArrive then
      .ok ({ st with
              assetCalibrationDone := true
              imagesReady := false
              viewData0 := some env.latestImage }, cmds)
    else .ok (st, cmds)
  else .ok (st, [])

/-- `Tool.doFgreScan` (Tool.py 611-627): behind the EXSI and asset guards,
queue the FGRE protocol and scan; on images-ready within 120 seconds clear
the signal and pull the latest image. -/
def doFgreScan (env : Env) (st : ToolState) :
    Except PyErr (ToolState × List Effect) :=
  if guardExsi st then .ok (st, [Effect.log msgExsiGuard])
  else if guardAsset st then .ok (st, [Effect.log msgAssetGuard])
  else
    let cmds := [Effect.cmd (ShimCmd.loadProtocol ("ConformalShimCalibration5")),
                 Effect.cmd ShimCmd.selTask, Effect.cmd ShimCmd.actTask,
                 Effect.cmd ShimCmd.patientTable, Effect.cmd ShimCmd.scan]
    if st.imagesReady || env.fgreArrive then
      .ok ({ st with imagesReady := false, viewData0 := some env.latestImage },
           cmds)
    else .ok (st, cmds)

/-- `Tool.computeBackgroundB0map` (Tool.py 306-313): store the freshly read
background map, recompute the final mask from it, the current basis list and
the ROI, and push the masked views. -/
def computeBackgroundB0map (env : Env) (st : ToolState) :
    Except PyErr ToolState :=
  let st1 := { st with backgroundB0Map := some env.backgroundScan }
  let fm := createMask env.backgroundScan st1.basisB0maps env.roiMask
  applyMask { st1 with finalMask := some fm }

/-- Tail of `Tool.doFieldmapScan` after a successful scan pair: restore the
principal solutions when an auto-prescan was just performed, then evaluate
the shim images. -/
def finishFieldmap (env : Env) (obtainPrinciples : Bool) (st : ToolState)
    (effs : List Effect) : Except PyErr (ToolState × List Effect) :=
  let st1 := if obtainPrinciples then (resetPrincipleSols st).1 else st
  match evaluateShimImages env st1 with
  | .ok st2 => .ok (st2, effs)
  | .error e => .error e

/-- `Tool.doFieldmapScan` (Tool.py 654-695): behind the three guards; when no
auto-prescan was done yet, reset principal solutions and shim solutions and
zero the shim channels; kick off the scan-pair worker; clear images-ready;
await 2 completions. On success, record either the background map (first
scan) or the slice `sliceIdx` of the shimmed map; on failure clear the
signals. Recording with the default `sliceIdx=None` hits numpy newaxis
indexing, modelled as TypeError (not reached by any claim). -/
def doFieldmapScan (env : Env) (sliceIdx : Option Nat) (st : ToolState) :
    Except PyErr (ToolState × List Effect) :=
  if guardExsi st then .ok (st, [Effect.log msgExsiGuard])
  else if guardShim st then .ok (st, [Effect.log msgShimGuard])
  else if guardAsset st then .ok (st, [Effect.log msgAssetGuard])
  else
    let obtainPrinciples := !st.autoPrescanDone
    let pre :=
      if !st.autoPrescanDone then resetShimSols (resetPrincipleSols st).1
      else st
    let effs0 :=
      if !st.autoPrescanDone then [Effect.cmd ShimCmd.shimZero] else []
    let pre := { workerPrescanEffect pre with imagesReady := false }
    match countScansCompleted env.fieldmapCount 2 pre with
    | (true, st1, _) =>
      (match st1.backgroundB0Map with
       | some _ =>
         (match sliceIdx with
          | none => .error .typeError
          | some i =>
            match computeShimmedB0Map (env.freshB0 i) i st1 with
            | .ok st2 => finishFieldmap env obtainPrinciples st2 effs0
            | .error e => .error e)
       | none =>
         match computeBackgroundB0map env st1 with
         | .ok st2 => finishFieldmap env obtainPrinciples st2 effs0
         | .error e => .error e)
    | (false, st1, _) =>
      .ok ({ st1 with imagesReady := false, readyEvent := false }, effs0)

/-- `Tool.doBasisCalibrationScans` (Tool.py 697-738): behind the three
guards; kick off the worker that queues all 2·(numLoops+3) basis scans, zero
the shim channels, reset the raw-basis buffer to all-unset, clear
images-ready, and await the batch. On success read the raw basis maps back,
drop the expected map and recompute the shim currents and statistics; on any
failure or timeout clear the signals and return, leaving the raw-basis
buffer unset and every stored map untouched. -/
def doBasisCalibrationScans (env : Env) (st : ToolState) :
    Except PyErr (ToolState × List Effect) :=
  if guardExsi st then .ok (st, [Effect.log msgExsiGuard])
  else if guardShim st then .ok (st, [Effect.log msgShimGuard])
  else if guardAsset st then .ok (st, [Effect.log msgAssetGuard])
  else
    match countScansCompleted env.basisCount ((st.numLoops + 3) * 2)
        (basisPreState st) with
    | (true, st1, _) =>
      let st2 := { st1 with
        rawBasisB0maps := some env.rawBasisMaps
        expectedB0Map := none }
      (match computeShimCurrents env st2 with
       | .ok (st3, _) =>
         (match evaluateShimImages env st3 with
          | .ok st4 => .ok (st4, [Effect.cmd ShimCmd.shimZero])
          | .error e => .error e)
       | .error e => .error e)
    | (false, st1, _) =>
      .ok ({ st1 with imagesReady := false, readyEvent := false },
           [Effect.cmd ShimCmd.shimZero])

/-- Body of `Tool.setAllShimCurrents` after the solutions checks: queue the
center-frequency and linear-gradient offsets, then set every loop channel
through `sendSyncedLoopSolution` — whose unbound-local defect raises at the
first channel whenever `numLoops > 0`. Short value or principal vectors
raise before any command is queued (numpy shape errors, folded into the
nearest Python exception kind). -/
def setAllShimCurrentsRest (sliceIdx : Nat) (st : ToolState) :
    Except PyErr (ToolState × List Effect) :=
  match st.solutionValuesToApply with
  | none => .error .typeError
  | some vals =>
    match vals[sliceIdx]? with
    | none => .error .indexError
    | some none => .error .typeError
    | some (some v) =>
      match v with
      | v0 :: v1 :: v2 :: v3 :: _ =>
        (match st.principleSols with
         | none => .error .typeError
         | some (p0 :: p1 :: p2 :: p3 :: _) =>
           let effs := [Effect.cmd (ShimCmd.setCF (round (p0 + v0))),
                        Effect.cmd (ShimCmd.setShimValues (round (v1 + p1))
                          (round (v2 + p2)) (round (v3 + p3)))]
           if st.numLoops = 0 then .ok (st, effs)
           else
             (match sendSyncedLoopSolution 0 (some sliceIdx) false st with
              | .ok _ => .error .unboundLocal
              | .error e => .error e)
         | some _ => .error .indexError)
      | _ => .error .indexError

/-- `Tool.setAllShimCurrents` (Tool.py 740-759): behind the shim-connection
guard; a no-op when no solutions are stored; otherwise the dictionary lookup
`shimModes[shimMode]` (KeyError off 0/1), the slice-wise solution check, and
the application of the per-slice values. -/
def setAllShimCurrents (sliceIdx : Nat) (st : ToolState) :
    Except PyErr (ToolState × List Effect) :=
  if guardShim st then .ok (st, [Effect.log msgShimGuard])
  else
    match st.solutions with
    | none => .ok (st, [])
    | some sols =>
      if st.shimMode = 0 then
        match sols[sliceIdx]? with
        | none => .error .indexError
        | some _ => setAllShimCurrentsRest sliceIdx st
      else if st.shimMode = 1 then setAllShimCurrentsRest sliceIdx st
      else .error .keyError

/-- `Tool.doEvalAppliedShims` (Tool.py 761-807): behind the three guards;
bail out with a log when the slice has no solution; otherwise kick off the
eval worker, zero the shims, clear images-ready and await 2·(numLoops+4)
completions. The artifact generation of `evaluateAppliedShims` writes plots
and .npy files to disk and mutates no orchestrator state; its read of the
unset background raises. -/
def doEvalAppliedShims (env : Env) (sliceIdx : Nat) (st : ToolState) :
    Except PyErr (ToolState × List Effect) :=
  if guardExsi st then .ok (st, [Effect.log msgExsiGuard])
  else if guardShim st then .ok (st, [Effect.log msgShimGuard])
  else if guardAsset st then .ok (st, [Effect.log msgAssetGuard])
  else
    match st.solutions with
    | none => .error .typeError
    | some sols =>
      match sols[sliceIdx]? with
      | none => .error .indexError
      | some none =>
        .ok (st, [Effect.log ("Error: No solutions computed for this slice.")])
      | some (some _) =>
        let pre := { workerPrescanEffect st with imagesReady := false }
        match countScansCompleted env.evalCount ((st.numLoops + 4) * 2) pre with
        | (true, st1, _) =>
          (match st1.backgroundB0Map with
           | none => .error .typeError
           | some _ => .ok (st1, [Effect.cmd ShimCmd.shimZero]))
        | (false, st1, _) =>
          .ok ({ st1 with imagesReady := false, readyEvent := false },
               [Effect.cmd ShimCmd.shimZero])

/-- The per-slice loop of `Tool.doAllShimmedScans` (Tool.py 846-865): for
each slice index await one scan pair; on success record that slice of the
shimmed map and re-evaluate the statistics (the `updateVals` worker, modelled
synchronously); on failure clear the signals and move to the next slice (the
Python loop does not break). -/
def shimmedLoop (env : Env) : List Nat → ToolState → Except PyErr ToolState
  | [], st => .ok st
  | idx :: rest, st =>
    match countScansCompleted (env.shimmedCount idx) 2 st with
    | (true, st1, _) =>
      (match computeShimmedB0Map (env.freshB0 idx) idx st1 with
       | .ok st2 =>
         (match evaluateShimImages env st2 with
          | .ok st3 => shimmedLoop env rest st3
          | .error e => .error e)
       | .error e => .error e)
    | (false, st1, _) =>
      shimmedLoop env rest { st1 with imagesReady := false, readyEvent := false }

/-- `Tool.doAllShimmedScans` (Tool.py 809-865): behind the three guards; an
early no-op when the expected map is already set; otherwise compute the
contiguous slice range from the expected-map statistics rows (no slices →
log and return), clear images-ready, kick off the per-slice command worker
and run the per-slice await loop. -/
def doAllShimmedScans (env : Env) (st : ToolState) :
    Except PyErr (ToolState × List Effect) :=
  if guardExsi st then .ok (st, [Effect.log msgExsiGuard])
  else if guardShim st then .ok (st, [Effect.log msgShimGuard])
  else if guardAsset st then .ok (st, [Effect.log msgAssetGuard])
  else if st.expectedB0Map.isSome then .ok (st, [])
  else
    match st.backgroundB0Map with
    | none => .error .attributeError
    | some bg =>
      match st.shimStats1 with
      | none => .error .typeError
      | some stats =>
        let idxs := (List.range bg.ns).filter fun i =>
          (stats.getD i none).isSome
        match idxs with
        | [] => .ok (st, [Effect.log ("Error: No slices to shim")])
        | startIdx :: _ =>
          match shimmedLoop env (List.range' startIdx idxs.length)
              { st with imagesReady := false } with
          | .ok st1 => .ok (st1, [])
          | .error e => .error e

/-- The slice-`j` content of the recorded shimmed map: NaN everywhere while
the map is unallocated. -/
def shimmedVal (st : ToolState) (r j p : Nat) : Option ℚ :=
  match st.shimmedB0Map with
  | some v => v.data r j p
  | none => none

/-- State of the standalone `ExsiGui` orchestrator, as far as its
asset-calibration macro reaches. -/
structure GuiState where
  assetCalibrationDone : Bool
  imagesReady : Bool
  deriving DecidableEq, Repr

/-- `ExsiGui.doCalibrationScan` (ExsiGui.py 327-337): undecorated; a no-op
once the asset-calibration flag is set, otherwise queue the calibration
protocol and scan and set the flag on images-ready within 120 seconds. -/
def guiDoCalibrationScan (arrive : Bool) (s : GuiState) :
    GuiState × List Effect :=
  if !s.assetCalibrationDone then
    let cmds := [Effect.cmd (ShimCmd.loadProtocol ("ConformalShimCalibration4")),
                 Effect.cmd ShimCmd.selTask, Effect.cmd ShimCmd.actTask,
                 Effect.cmd ShimCmd.patientTable, Effect.cmd ShimCmd.scan]
    if s.imagesReady || arrive then
      ({ assetCalibrationDone := true, imagesReady := false }, cmds)
    else (s, cmds)
  else (s, [])

/-- A concrete 1×3×1 volume with every voxel measured as 0 Hz. -/
def sampleB0 : B0Map :=
  { nr := 1, ns := 3, nph := 1, data := fun _ _ _ => some 0 }

/-- A concrete all-true boolean volume. -/
def sampleMask : Mask := fun _ _ _ => true

/-- A concrete scan-outcome oracle where no failure is ever raised and the
images-ready signal never arrives. -/
def silentCountEnv : CountEnv :=
  { fail := fun _ => false, arrive := fun _ => none }

/-- A concrete environment: the solver always returns the length-4 vector
`[0, 0, 0, 1]` (matching `numLoops = 0`), every wait times out. -/
def sampleEnv : Env :=
  { roiMask := sampleMask
    solve := fun _ _ _ _ _ => some [0, 0, 0, 1]
    evalStats := fun _ => []
    backgroundScan := sampleB0
    rawBasisMaps := [sampleB0, sampleB0, sampleB0]
    freshB0 := fun _ => sampleB0
    latestImage := sampleB0
    calArrive := true
    fgreArrive := true
    fieldmapCount := silentCountEnv
    basisCount := silentCountEnv
    evalCount := silentCountEnv
    shimmedCount := fun _ => silentCountEnv }

/-- The freshly constructed tool with no loops and debugging off:
disconnected, uncalibrated, nothing scanned. -/
def freshState : ToolState := toolInit 0 false

/-- A tool state with both clients connected and the asset calibration done. -/
def connState : ToolState :=
  { toolInit 0 false with
    exsiConnected := true, shimConnected := true, assetCalibrationDone := true }

/-- A connected state that additionally holds a background map and a full
raw-basis buffer of the matching length `numLoops + 3 = 3`. -/
def solvedState : ToolState :=
  { connState with
    backgroundB0Map := some sampleB0
    rawBasisB0maps := some [sampleB0, sampleB0, sampleB0] }

/-- A state with a final mask set, ready for slice-wise recording. -/
def maskedState : ToolState :=
  { toolInit 0 false with finalMask := some sampleMask }

/-- A state for exercising `sendSyncedLoopSolution` with every read
succeeding: one loop, principal solutions and applied values present. -/
def c4State : ToolState :=
  { toolInit 1 false with
    principleSols := some [0, 0, 0, 0, 1]
    solutionValuesToApply := some [some [0, 0, 0, 0, 2]] }

/-- The solutions list that `Tool.computeShimCurrents` stores for a tool
state holding background `bg` and raw basis maps `raws`: the per-slice solver
results against the recomputed final mask. -/
def shimSolutionList (env : Env) (st : ToolState) (bg : B0Map)
    (raws : List B0Map) : List (Option (List ℚ)) :=
  solveMasksSols env st.gradientCalStrength st.loopCalCurrent bg
    (subtractBackground bg raws)
    (createMask bg ((subtractBackground bg raws).map some) env.roiMask)

lemma maskOr_comm (a b : Mask) : maskOr a b = maskOr b a := by
  funext r s p
  simp [maskOr, Bool.or_comm]

lemma countLoop_frame (e : CountEnv) :
    ∀ (n i : Nat) (st : ToolState),
      ((countLoop e n i st).2.1.rawBasisB0maps = st.rawBasisB0maps) ∧
      ((countLoop e n i st).2.1.basisB0maps = st.basisB0maps) ∧
      ((countLoop e n i st).2.1.readyEvent = st.readyEvent) ∧
      ((countLoop e n i st).2.1.shimmedB0Map = st.shimmedB0Map) := by
  intro n
  induction n with
  | zero => intro i st; simp [countLoop]
  | succ n ih =>
    intro i st
    simp only [countLoop]
    split
    · split
      · simpa using ih (i + 1) { st with imagesReady := false }
      · simp
    · simp

lemma scaleFrom_length (g c : ℚ) :
    ∀ (v : List ℚ) (j : Nat), (scaleFrom g c j v).length = v.length := by
  intro v
  induction v with
  | nil => intro j; rfl
  | cons x xs ih => intro j; simp [scaleFrom, ih]

lemma scaleFrom_getElem (g c : ℚ) :
    ∀ (v : List ℚ) (j k : Nat),
      (scaleFrom g c j v)[k]? = (v[k]?).map (scaleEntry g c (j + k)) := by
  intro v
  induction v with
  | nil => intro j k; simp [scaleFrom]
  | cons x xs ih =>
    intro j k
    cases k with
    | zero => simp [scaleFrom]
    | succ k =>
      have h := ih (j + 1) k
      have harith : j + 1 + k = j + (k + 1) := by omega
      simp [scaleFrom, h, harith]

lemma scaleSolution_getElem (g c : ℚ) (v : List ℚ) (k : Nat) :
    (scaleSolution g c v)[k]? = (v[k]?).map (scaleEntry g c k) := by
  simpa using scaleFrom_getElem g c v 0 k

/-- C10: after `Tool.__init__` the `principleSols` attribute is `None` — the
constructor assigns back the `None` return value of `resetPrincipleSols`
over the vector that call just stored in place — and the attribute becomes
the proper zero vector of length 4 + numLoops only after a subsequent
`resetPrincipleSols` call. -/
theorem toolInit_principleSols_none (numLoops : Nat) (dbg : Bool) :
    (toolInit numLoops dbg).principleSols = none ∧
    ((resetPrincipleSols (toolInit numLoops dbg)).1).principleSols =
      some (List.replicate (4 + numLoops) 0) := by
  constructor
  · simp [toolInit, resetPrincipleSols]
  · simp [toolInit, resetPrincipleSols, principleVector]

/-- C4: on a channel/slice with a non-null solution every read in
`sendSyncedLoopSolution` succeeds and the augmented assignment to the
never-initialized local `current` raises UnboundLocalError, so no set-current
command of amplitude principalOffset + scaledSolutionValue is ever queued. -/
theorem sendSyncedLoopSolution_raises :
    sendSyncedLoopSolution 0 (some 0) false c4State = .error .unboundLocal :=
  rfl

/-- C7: when the images-ready signal is never raised, `countScansCompleted n`
(for n ≥ 1) returns a failure result having blocked at most n × 90 seconds —
in fact it fails at the first 90-second wait; the loop recurses on `n`, so it
cannot block indefinitely. -/
theorem countScans_timeout_bound (e : CountEnv) (n : Nat) (st : ToolState)
    (hn : 1 ≤ n) (hready : st.imagesReady = false)
    (hnever : ∀ i, e.arrive i = none) :
    (countScansCompleted e n st).1 = false ∧
    (countScansCompleted e n st).2.2 ≤ n * 90 := by
  cases n with
  | zero => exact absurd hn (by omega)
  | succ m =>
    unfold countScansCompleted countLoop
    by_cases h : (st.noFailures && !(e.fail 0)) = true
    · rw [if_pos h]
      rw [hready]
      simp only [Bool.false_eq_true, if_false, hnever 0]
      refine ⟨?_, by omega⟩
      trivial
    · rw [if_neg h]
      exact ⟨rfl, Nat.zero_le _⟩

/-- Witness for C7 at n = 1 on the fresh state and the silent oracle. -/
theorem countScans_timeout_bound_witness :
    (1 ≤ 1) ∧ freshState.imagesReady = false ∧
    (countScansCompleted silentCountEnv 1 freshState).1 = false ∧
    (countScansCompleted silentCountEnv 1 freshState).2.2 ≤ 1 * 90 :=
  ⟨by decide, rfl,
    (countScans_timeout_bound silentCountEnv 1 freshState (by decide) rfl
      (fun _ => rfl)).1,
    (countScans_timeout_bound silentCountEnv 1 freshState (by decide) rfl
      (fun _ => rfl)).2⟩

/-- C1: the solve mask built by `computeShimCurrents` for slice `i` of an at
least two-slice volume: the first slice unions slices 0 and 1 of the final
mask only, the last slice unions the last slice and its single predecessor
only, and every interior slice unions the final mask at slices i-1, i, i+1. -/
theorem solveMask_union (fm : Mask) (ns : Nat) (h2 : 2 ≤ ns) :
    (solveMaskForSlice fm ns 0 =
      maskOr (maskOneSlice fm 0) (maskOneSlice fm 1)) ∧
    (∀ i, 0 < i → i < ns - 1 →
      solveMaskForSlice fm ns i =
        maskOr (maskOr (maskOneSlice fm (i - 1)) (maskOneSlice fm i))
          (maskOneSlice fm (i + 1))) ∧
    (solveMaskForSlice fm ns (ns - 1) =
      maskOr (maskOneSlice fm (ns - 1)) (maskOneSlice fm (ns - 2))) := by
  refine ⟨?_, ?_, ?_⟩
  · have h01 : 0 < ns - 1 := by omega
    simp [solveMaskForSlice, h01]
  · intro i h0 h1
    simp only [solveMaskForSlice, if_pos h0, if_pos h1]
    rw [maskOr_comm (maskOneSlice fm i) (maskOneSlice fm (i - 1))]
  · have h0 : 0 < ns - 1 := by omega
    have hlt : ¬(ns - 1 < ns - 1) := by omega
    simp [solveMaskForSlice, h0, hlt, show ns - 1 - 1 = ns - 2 by omega]

/-- Witness for C1 on a concrete 3-slice mask: first-slice and interior
characterizations instantiated. -/
theorem solveMask_union_witness :
    (2 ≤ 3) ∧
    (solveMaskForSlice sampleMask 3 0 =
      maskOr (maskOneSlice sampleMask 0) (maskOneSlice sampleMask 1)) ∧
    (solveMaskForSlice sampleMask 3 1 =
      maskOr (maskOr (maskOneSlice sampleMask 0) (maskOneSlice sampleMask 1))
        (maskOneSlice sampleMask 2)) :=
  ⟨by decide, (solveMask_union sampleMask 3 (by decide)).1,
    (solveMask_union sampleMask 3 (by decide)).2.1 1 (by decide) (by decide)⟩

/-- C6: every guarded macro procedure, called with its connection or
calibration precondition unmet (and debugging off), logs the violation and
returns with the orchestrator state untouched and no exception raised. -/
theorem guard_short_circuit (env : Env) (st : ToolState) (sliceIdx : Nat)
    (osl : Option Nat) (hdbg : st.debugging = false) :
    ((st.exsiConnected = false ∨ st.shimConnected = false ∨
        st.assetCalibrationDone = false) →
      ∃ m, doFieldmapScan env osl st = .ok (st, [Effect.log m])) ∧
    ((st.exsiConnected = false ∨ st.shimConnected = false ∨
        st.assetCalibrationDone = false) →
      ∃ m, doBasisCalibrationScans env st = .ok (st, [Effect.log m])) ∧
    ((st.exsiConnected = false ∨ st.shimConnected = false ∨
        st.assetCalibrationDone = false) →
      ∃ m, doAllShimmedScans env st = .ok (st, [Effect.log m])) ∧
    ((st.exsiConnected = false ∨ st.shimConnected = false ∨
        st.assetCalibrationDone = false) →
      ∃ m, doEvalAppliedShims env sliceIdx st = .ok (st, [Effect.log m])) ∧
    (st.shimConnected = false →
      ∃ m, setAllShimCurrents sliceIdx st = .ok (st, [Effect.log m])) ∧
    (st.exsiConnected = false →
      ∃ m, doCalibrationScan env st = .ok (st, [Effect.log m])) ∧
    ((st.exsiConnected = false ∨ st.assetCalibrationDone = false) →
      ∃ m, doFgreScan env st = .ok (st, [Effect.log m])) := by
  refine ⟨?_, ?_, ?_, ?_, ?_, ?_, ?_⟩
  · intro h
    by_cases hE : st.exsiConnected
    · by_cases hS : st.shimConnected
      · by_cases hA : st.assetCalibrationDone
        · rcases h with h | h | h <;> simp_all
        · exact ⟨msgAssetGuard, by
            simp [doFieldmapScan, guardExsi, guardShim, guardAsset, hE, hS,
              hA, hdbg]⟩
      · exact ⟨msgShimGuard, by
          simp [doFieldmapScan, guardExsi, guardShim, hE, hS, hdbg]⟩
    · exact ⟨msgExsiGuard, by simp [doFieldmapScan, guardExsi, hE, hdbg]⟩
  · intro h
    by_cases hE : st.exsiConnected
    · by_cases hS : st.shimConnected
      · by_cases hA : st.assetCalibrationDone
        · rcases h with h | h | h <;> simp_all
        · exact ⟨msgAssetGuard, by
            simp [doBasisCalibrationScans, guardExsi, guardShim, guardAsset,
              hE, hS, hA, hdbg]⟩
      · exact ⟨msgShimGuard, by
          simp [doBasisCalibrationScans, guardExsi, guardShim, hE, hS, hdbg]⟩
    · exact ⟨msgExsiGuard, by
        simp [doBasisCalibrationScans, guardExsi, hE, hdbg]⟩
  · intro h
    by_cases hE : st.exsiConnected
    · by_cases hS : st.shimConnected
      · by_cases hA : st.assetCalibrationDone
        · rcases h with h | h | h <;> simp_all
        · exact ⟨msgAssetGuard, by
            simp [doAllShimmedScans, guardExsi, guardShim, guardAsset, hE, hS,
              hA, hdbg]⟩
      · exact ⟨msgShimGuard, by
          simp [doAllShimmedScans, guardExsi, guardShim, hE, hS, hdbg]⟩
    · exact ⟨msgExsiGuard, by simp [doAllShimmedScans, guardExsi, hE, hdbg]⟩
  · intro h
    by_cases hE : st.exsiConnected
    · by_cases hS : st.shimConnected
      · by_cases hA : st.assetCalibrationDone
        · rcases h with h | h | h <;> simp_all
        · exact ⟨msgAssetGuard, by
            simp [doEvalAppliedShims, guardExsi, guardShim, guardAsset, hE,
              hS, hA, hdbg]⟩
      · exact ⟨msgShimGuard, by
          simp [doEvalAppliedShims, guardExsi, guardShim, hE, hS, hdbg]⟩
    · exact ⟨msgExsiGuard, by simp [doEvalAppliedShims, guardExsi, hE, hdbg]⟩
  · intro hS
    exact ⟨msgShimGuard, by
      simp [setAllShimCurrents, guardShim, hS, hdbg]⟩
  · intro hE
    exact ⟨msgExsiGuard, by simp [doCalibrationScan, guardExsi, hE, hdbg]⟩
  · intro h
    by_cases hE : st.exsiConnected
    · by_cases hA : st.assetCalibrationDone
      · rcases h with h | h <;> simp_all
      · exact ⟨msgAssetGuard, by
          simp [doFgreScan, guardExsi, guardAsset, hE, hA, hdbg]⟩
    · exact ⟨msgExsiGuard, by simp [doFgreScan, guardExsi, hE, hdbg]⟩

/-- Witness for C6: the freshly constructed tool (debugging off, nothing
connected, not calibrated) short-circuits every guarded macro procedure. -/
theorem guard_short_circuit_witness :
    freshState.debugging = false ∧
    (∃ m, doFieldmapScan sampleEnv none freshState =
      .ok (freshState, [Effect.log m])) ∧
    (∃ m, doBasisCalibrationScans sampleEnv freshState =
      .ok (freshState, [Effect.log m])) ∧
    (∃ m, doAllShimmedScans sampleEnv freshState =
      .ok (freshState, [Effect.log m])) ∧
    (∃ m, doEvalAppliedShims sampleEnv 0 freshState =
      .ok (freshState, [Effect.log m])) ∧
    (∃ m, setAllShimCurrents 0 freshState = .ok (freshState, [Effect.log m])) ∧
    (∃ m, doCalibrationScan sampleEnv freshState =
      .ok (freshState, [Effect.log m])) ∧
    (∃ m, doFgreScan sampleEnv freshState = .ok (freshState, [Effect.log m])) :=
  ⟨rfl,
    (guard_short_circuit sampleEnv freshState 0 none rfl).1 (Or.inl rfl),
    (guard_short_circuit sampleEnv freshState 0 none rfl).2.1 (Or.inl rfl),
    (guard_short_circuit sampleEnv freshState 0 none rfl).2.2.1 (Or.inl rfl),
    (guard_short_circuit sampleEnv freshState 0 none rfl).2.2.2.1 (Or.inl rfl),
    (guard_short_circuit sampleEnv freshState 0 none rfl).2.2.2.2.1 rfl,
    (guard_short_circuit sampleEnv freshState 0 none rfl).2.2.2.2.2.1 rfl,
    (guard_short_circuit sampleEnv freshState 0 none rfl).2.2.2.2.2.2
      (Or.inl rfl)⟩

/-- C8: once the asset-calibration completion flag is set, re-invoking the
calibration procedure is a no-op — the orchestrator state is returned
unchanged and no scanner command is queued — both for `Tool.doCalibrationScan`
(which may still emit a guard log) and for the undecorated
`ExsiGui.doCalibrationScan`. -/
theorem calibration_idempotent (env : Env) (st : ToolState) (arrive : Bool)
    (gs : GuiState) (h : st.assetCalibrationDone = true)
    (hg : gs.assetCalibrationDone = true) :
    (∃ effs, doCalibrationScan env st = .ok (st, effs) ∧
      effs.all Effect.isLog = true) ∧
    guiDoCalibrationScan arrive gs = (gs, []) := by
  constructor
  · by_cases hE : guardExsi st
    · exact ⟨[Effect.log msgExsiGuard], by simp [doCalibrationScan, hE], rfl⟩
    · exact ⟨[], by simp [doCalibrationScan, hE, h], rfl⟩
  · simp [guiDoCalibrationScan, hg]

/-- Witness for C8: a calibrated tool state and GUI state. -/
theorem calibration_idempotent_witness :
    connState.assetCalibrationDone = true ∧
    (∃ effs, doCalibrationScan sampleEnv connState = .ok (connState, effs) ∧
      effs.all Effect.isLog = true) ∧
    guiDoCalibrationScan false ⟨true, false⟩ = (⟨true, false⟩, []) :=
  ⟨rfl,
    (calibration_idempotent sampleEnv connState false ⟨true, false⟩ rfl rfl).1,
    (calibration_idempotent sampleEnv connState false ⟨true, false⟩ rfl rfl).2⟩

lemma countScans_frame (e : CountEnv) (n : Nat) (st : ToolState) :
    ((countScansCompleted e n st).2.1.rawBasisB0maps = st.rawBasisB0maps) ∧
    ((countScansCompleted e n st).2.1.basisB0maps = st.basisB0maps) ∧
    ((countScansCompleted e n st).2.1.readyEvent = st.readyEvent) ∧
    ((countScansCompleted e n st).2.1.shimmedB0Map = st.shimmedB0Map) :=
  countLoop_frame e n 0 st

/-- C2: when any scan of a basis-calibration batch fails or times out (the
`2×(numLoops+3)`-scan await returns failure), `doBasisCalibrationScans`
returns normally with the raw-basis buffer still fully unset (it was reset
once at the start of the batch and never repopulated), the processed basis
maps of any earlier batch untouched, and the pending completion signals
cleared. -/
theorem basis_batch_abort (env : Env) (st : ToolState)
    (h1 : st.exsiConnected = true) (h2 : st.shimConnected = true)
    (h3 : st.assetCalibrationDone = true)
    (hfail : (countScansCompleted env.basisCount ((st.numLoops + 3) * 2)
      (basisPreState st)).1 = false) :
    ∃ st' effs, doBasisCalibrationScans env st = .ok (st', effs) ∧
      st'.rawBasisB0maps = none ∧
      st'.basisB0maps = st.basisB0maps ∧
      st'.imagesReady = false ∧ st'.readyEvent = false := by
  have hgE : guardExsi st = false := by simp [guardExsi, h1]
  have hgS : guardShim st = false := by simp [guardShim, h2]
  have hgA : guardAsset st = false := by simp [guardAsset, h3]
  have hframe := countScans_frame env.basisCount ((st.numLoops + 3) * 2)
    (basisPreState st)
  unfold doBasisCalibrationScans
  rw [hgE, hgS, hgA]
  simp only [Bool.false_eq_true, if_false]
  rcases hc : countScansCompleted env.basisCount ((st.numLoops + 3) * 2)
      (basisPreState st) with ⟨b, st1, t⟩
  rw [hc] at hfail hframe
  have hb : b = false := hfail
  subst hb
  refine ⟨_, _, rfl, ?_, ?_, rfl, rfl⟩
  · have : st1.rawBasisB0maps = (basisPreState st).rawBasisB0maps := hframe.1
    rw [this]
    simp [basisPreState]
  · have : st1.basisB0maps = (basisPreState st).basisB0maps := hframe.2.1
    rw [this]
    simp only [basisPreState, workerPrescanEffect]
    split <;> rfl

/-- Witness for C2: a connected calibrated tool where every basis scan wait
times out. -/
theorem basis_batch_abort_witness :
    (countScansCompleted sampleEnv.basisCount ((connState.numLoops + 3) * 2)
      (basisPreState connState)).1 = false ∧
    ∃ st' effs, doBasisCalibrationScans sampleEnv connState = .ok (st', effs) ∧
      st'.rawBasisB0maps = none ∧
      st'.basisB0maps = connState.basisB0maps ∧
      st'.imagesReady = false ∧ st'.readyEvent = false :=
  ⟨rfl, basis_batch_abort sampleEnv connState rfl rfl rfl rfl⟩

lemma solveMasksSols_any_false (env : Env) (g c : ℚ) (bg : B0Map)
    (basis : List B0Map) (fm : Mask) :
    ((solveMasksSols env g c bg basis fm).any (fun s => s.isSome) = false) ↔
    ∀ i < bg.ns, env.solve bg basis (solveMaskForSlice fm bg.ns i) g c = none := by
  rw [solveMasksSols, List.any_eq_false]
  constructor
  · intro h i hi
    have h2 := h (env.solve bg basis (solveMaskForSlice fm bg.ns i) g c)
      (List.mem_map.mpr ⟨i, List.mem_range.mpr hi, rfl⟩)
    cases ho : env.solve bg basis (solveMaskForSlice fm bg.ns i) g c with
    | none => rfl
    | some v => rw [ho] at h2; simp at h2
  · intro h x hx
    rcases List.mem_map.mp hx with ⟨i, hi, rfl⟩
    rw [List.mem_range] at hi
    simp [h i hi]

lemma solveMasksSols_lengths (env : Env) (g c : ℚ) (bg : B0Map)
    (basis : List B0Map) (fm : Mask) (numLoops : Nat)
    (hlen : ∀ m v, env.solve bg basis m g c = some v →
      v.length = numLoops + 4)
    (hbl : numLoops + 3 ≤ basis.length) :
    expectedLengthsOk numLoops basis (solveMasksSols env g c bg basis fm) =
      true := by
  unfold expectedLengthsOk
  rw [Bool.and_eq_true]
  refine ⟨by simpa using hbl, ?_⟩
  rw [List.all_eq_true]
  intro s hs
  rcases s with _ | v
  · rfl
  · simp only [solveMasksSols, List.mem_map, List.mem_range] at hs
    rcases hs with ⟨i, _, hEq⟩
    have hv := hlen _ v hEq
    simp only [decide_eq_true_eq]
    omega

lemma computeShimCurrents_run (env : Env) (st : ToolState) (bg : B0Map)
    (raws : List B0Map)
    (hbg : st.backgroundB0Map = some bg)
    (hraws : st.rawBasisB0maps = some raws)
    (hrl : st.numLoops + 3 ≤ raws.length)
    (hlen : ∀ m v, env.solve bg (subtractBackground bg raws) m
      st.gradientCalStrength st.loopCalCurrent = some v →
      v.length = st.numLoops + 4) :
    ∃ st' ok, computeShimCurrents env st = .ok (st', ok) ∧
      st'.solutions = some (solveMasksSols env st.gradientCalStrength
        st.loopCalCurrent bg (subtractBackground bg raws)
        (createMask bg ((subtractBackground bg raws).map some) env.roiMask)) ∧
      st'.solutionValuesToApply = some (getSolutionsToApply
        (solveMasksSols env st.gradientCalStrength st.loopCalCurrent bg
          (subtractBackground bg raws)
          (createMask bg ((subtractBackground bg raws).map some) env.roiMask))
        st.gradientCalStrength st.loopCalCurrent) ∧
      (ok = false ↔ ∀ i < bg.ns,
        env.solve bg (subtractBackground bg raws)
          (solveMaskForSlice
            (createMask bg ((subtractBackground bg raws).map some) env.roiMask)
            bg.ns i)
          st.gradientCalStrength st.loopCalCurrent = none) := by
  have hbl : st.numLoops + 3 ≤ (subtractBackground bg raws).length := by
    simpa [subtractBackground] using hrl
  have hexp := solveMasksSols_lengths env st.gradientCalStrength
    st.loopCalCurrent bg (subtractBackground bg raws)
    (createMask bg ((subtractBackground bg raws).map some) env.roiMask)
    st.numLoops hlen hbl
  simp only [computeShimCurrents, hbg, hraws, hexp, eq_self_iff_true, if_true]
  split
  · next hany =>
    simp only [applyMask]
    refine ⟨_, true, rfl, rfl, rfl, ?_⟩
    constructor
    · intro h; exact absurd h (by simp)
    · intro hall
      have := (solveMasksSols_any_false env st.gradientCalStrength
        st.loopCalCurrent bg (subtractBackground bg raws)
        (createMask bg ((subtractBackground bg raws).map some)
          env.roiMask)).mpr hall
      rw [this] at hany
      exact absurd hany (by simp)
  · next hany =>
    refine ⟨_, false, rfl, rfl, rfl, ?_⟩
    simp only [true_iff, eq_self_iff_true]
    exact (solveMasksSols_any_false env st.gradientCalStrength
      st.loopCalCurrent bg (subtractBackground bg raws)
      (createMask bg ((subtractBackground bg raws).map some)
        env.roiMask)).mp (by simpa using hany)

lemma getSolutionsToApply_getElem (sols : List (Option (List ℚ))) (g c : ℚ)
    (i : Nat) :
    (getSolutionsToApply sols g c)[i]? =
      (sols[i]?).map (Option.map (scaleSolution g c)) := by
  simp [getSolutionsToApply, List.getElem?_map]

lemma shimSolutionList_getElem_some (env : Env) (st : ToolState) (bg : B0Map)
    (raws : List B0Map) (i : Nat) (v : List ℚ)
    (h : (shimSolutionList env st bg raws)[i]? = some (some v)) :
    env.solve bg (subtractBackground bg raws)
      (solveMaskForSlice
        (createMask bg ((subtractBackground bg raws).map some) env.roiMask)
        bg.ns i)
      st.gradientCalStrength st.loopCalCurrent = some v := by
  simp only [shimSolutionList, solveMasksSols, List.getElem?_map] at h
  by_cases hi : i < bg.ns
  · rw [List.getElem?_range hi] at h
    simpa using h
  · have hlen : (List.range bg.ns).length ≤ i := by
      rw [List.length_range]
      omega
    rw [List.getElem?_eq_none hlen] at h
    simp at h

lemma scaleSolution_entry_zero (g c : ℚ) (v : List ℚ) :
    (scaleSolution g c v)[0]? = v[0]? := by
  rw [scaleSolution_getElem]
  cases v[0]? <;> simp [scaleEntry]

lemma scaleSolution_entry_grad (g c : ℚ) (v : List ℚ) (j : Nat)
    (h1 : 1 ≤ j) (h2 : j < 4) :
    (scaleSolution g c v)[j]? = (v[j]?).map (fun x => x * g) := by
  rw [scaleSolution_getElem]
  cases v[j]? <;> simp [scaleEntry, (show ¬(j = 0) by omega), h2]

lemma scaleSolution_entry_current (g c : ℚ) (v : List ℚ) (j : Nat)
    (h : 4 ≤ j) :
    (scaleSolution g c v)[j]? = (v[j]?).map (fun x => x * c) := by
  rw [scaleSolution_getElem]
  cases v[j]? <;>
    simp [scaleEntry, (show ¬(j = 0) by omega), (show ¬(j < 4) by omega)]

/-- C3: under a set background and a full raw-basis buffer (and the solver
length contract of the spec), `computeShimCurrents` returns normally, records
exactly the per-slice solver results — null for each failed slice, the
solver's vector for each solved slice — and its success flag is false exactly
when the solver returned null for every slice of the volume. -/
theorem computeShimCurrents_failure_iff (env : Env) (st : ToolState)
    (bg : B0Map) (raws : List B0Map)
    (hbg : st.backgroundB0Map = some bg)
    (hraws : st.rawBasisB0maps = some raws)
    (hrl : st.numLoops + 3 ≤ raws.length)
    (hlen : ∀ m v, env.solve bg (subtractBackground bg raws) m
      st.gradientCalStrength st.loopCalCurrent = some v →
      v.length = st.numLoops + 4) :
    ∃ st' ok, computeShimCurrents env st = .ok (st', ok) ∧
      st'.solutions = some (shimSolutionList env st bg raws) ∧
      (ok = false ↔ ∀ i < bg.ns,
        env.solve bg (subtractBackground bg raws)
          (solveMaskForSlice
            (createMask bg ((subtractBackground bg raws).map some)
              env.roiMask)
            bg.ns i)
          st.gradientCalStrength st.loopCalCurrent = none) := by
  obtain ⟨st', ok, heq, hsol, _, hiff⟩ :=
    computeShimCurrents_run env st bg raws hbg hraws hrl hlen
  exact ⟨st', ok, heq, hsol, hiff⟩

/-- Witness for C3: the connected state holding a 3-slice background and
three raw maps, with a solver that always solves. -/
theorem computeShimCurrents_failure_iff_witness :
    solvedState.backgroundB0Map = some sampleB0 ∧
    solvedState.rawBasisB0maps = some [sampleB0, sampleB0, sampleB0] ∧
    solvedState.numLoops + 3 ≤ [sampleB0, sampleB0, sampleB0].length ∧
    ∃ st' ok, computeShimCurrents sampleEnv solvedState = .ok (st', ok) ∧
      st'.solutions =
        some (shimSolutionList sampleEnv solvedState sampleB0
          [sampleB0, sampleB0, sampleB0]) ∧
      (ok = false ↔ ∀ i < sampleB0.ns,
        sampleEnv.solve sampleB0
          (subtractBackground sampleB0 [sampleB0, sampleB0, sampleB0])
          (solveMaskForSlice
            (createMask sampleB0
              ((subtractBackground sampleB0
                [sampleB0, sampleB0, sampleB0]).map some)
              sampleEnv.roiMask)
            sampleB0.ns i)
          solvedState.gradientCalStrength solvedState.loopCalCurrent =
          none) :=
  ⟨rfl, rfl, by decide,
    computeShimCurrents_failure_iff sampleEnv solvedState sampleB0
      [sampleB0, sampleB0, sampleB0] rfl rfl (by decide)
      (fun m v h => by
        simp only [sampleEnv] at h
        injection h with h'
        rw [← h']
        decide)⟩

/-- C5: under the same hypotheses, every slice with a non-null solution
vector has a solution of length numLoops + 4, and the stored applied-value
list is its entrywise conversion: entry 0 kept, entries 1..3 scaled by the
gradient calibration strength, entries from 4 on scaled by the loop
calibration current; null slices stay null. -/
theorem appliedValues_scaling (env : Env) (st : ToolState)
    (bg : B0Map) (raws : List B0Map)
    (hbg : st.backgroundB0Map = some bg)
    (hraws : st.rawBasisB0maps = some raws)
    (hrl : st.numLoops + 3 ≤ raws.length)
    (hlen : ∀ m v, env.solve bg (subtractBackground bg raws) m
      st.gradientCalStrength st.loopCalCurrent = some v →
      v.length = st.numLoops + 4) :
    ∃ st' ok, computeShimCurrents env st = .ok (st', ok) ∧
      st'.solutionValuesToApply =
        some (getSolutionsToApply (shimSolutionList env st bg raws)
          st.gradientCalStrength st.loopCalCurrent) ∧
      (getSolutionsToApply (shimSolutionList env st bg raws)
        st.gradientCalStrength st.loopCalCurrent).length =
        (shimSolutionList env st bg raws).length ∧
      ∀ i : Nat,
        ((shimSolutionList env st bg raws)[i]? = some none →
          (getSolutionsToApply (shimSolutionList env st bg raws)
            st.gradientCalStrength st.loopCalCurrent)[i]? = some none) ∧
        (∀ v, (shimSolutionList env st bg raws)[i]? = some (some v) →
          v.length = st.numLoops + 4 ∧
          (getSolutionsToApply (shimSolutionList env st bg raws)
            st.gradientCalStrength st.loopCalCurrent)[i]? =
            some (some (scaleSolution st.gradientCalStrength
              st.loopCalCurrent v)) ∧
          (scaleSolution st.gradientCalStrength st.loopCalCurrent v).length =
            st.numLoops + 4 ∧
          (scaleSolution st.gradientCalStrength st.loopCalCurrent v)[0]? =
            v[0]? ∧
          (∀ j : Nat, 1 ≤ j → j < 4 →
            (scaleSolution st.gradientCalStrength st.loopCalCurrent v)[j]? =
              (v[j]?).map (fun x => x * st.gradientCalStrength)) ∧
          (∀ j : Nat, 4 ≤ j →
            (scaleSolution st.gradientCalStrength st.loopCalCurrent v)[j]? =
              (v[j]?).map (fun x => x * st.loopCalCurrent))) := by
  obtain ⟨st', ok, heq, _, happ, _⟩ :=
    computeShimCurrents_run env st bg raws hbg hraws hrl hlen
  have happ' : st'.solutionValuesToApply =
      some (getSolutionsToApply (shimSolutionList env st bg raws)
        st.gradientCalStrength st.loopCalCurrent) := happ
  refine ⟨st', ok, heq, happ', ?_, ?_⟩
  · simp [getSolutionsToApply]
  intro i
  constructor
  · intro hnull
    rw [getSolutionsToApply_getElem, hnull]
    rfl
  · intro v hv
    have hvlen : v.length = st.numLoops + 4 :=
      hlen _ v (shimSolutionList_getElem_some env st bg raws i v hv)
    refine ⟨hvlen, ?_, ?_, scaleSolution_entry_zero _ _ v,
      fun j h1 h2 => scaleSolution_entry_grad _ _ v j h1 h2,
      fun j h4 => scaleSolution_entry_current _ _ v j h4⟩
    · rw [getSolutionsToApply_getElem, hv]
      rfl
    · rw [scaleSolution, scaleFrom_length, hvlen]

/-- Witness for C5 at the same concrete instance as C3. -/
theorem appliedValues_scaling_witness :
    solvedState.backgroundB0Map = some sampleB0 ∧
    solvedState.numLoops + 3 ≤ [sampleB0, sampleB0, sampleB0].length ∧
    ∃ st' ok, computeShimCurrents sampleEnv solvedState = .ok (st', ok) ∧
      st'.solutionValuesToApply =
        some (getSolutionsToApply
          (shimSolutionList sampleEnv solvedState sampleB0
            [sampleB0, sampleB0, sampleB0])
          solvedState.gradientCalStrength solvedState.loopCalCurrent) :=
  ⟨rfl, by decide, by
    obtain ⟨st', ok, heq, happ, _, _⟩ :=
      appliedValues_scaling sampleEnv solvedState sampleB0
        [sampleB0, sampleB0, sampleB0] rfl rfl (by decide)
        (fun m v h => by
          simp only [sampleEnv] at h
          injection h with h'
          rw [← h']
          decide)
    exact ⟨st', ok, heq, happ⟩⟩

lemma applyMask_shimmed (st st' : ToolState) (h : applyMask st = .ok st') :
    st'.shimmedB0Map = st.shimmedB0Map := by
  unfold applyMask at h
  cases hfm : st.finalMask with
  | none => rw [hfm] at h; exact Except.noConfusion h
  | some fm =>
    rw [hfm] at h
    injection h with h'
    rw [← h']

lemma evaluateShimImages_shimmed (env : Env) (st st' : ToolState)
    (h : evaluateShimImages env st = .ok st') :
    st'.shimmedB0Map = st.shimmedB0Map := by
  unfold evaluateShimImages at h
  cases hbg : st.backgroundB0Map with
  | none => rw [hbg] at h; exact Except.noConfusion h
  | some bg =>
    rw [hbg] at h
    cases hfm : st.finalMask with
    | none => rw [hfm] at h; exact Except.noConfusion h
    | some fm =>
      rw [hfm] at h
      injection h with h'
      rw [← h']

lemma computeShimmedB0Map_frame (nm : B0Map) (idx : Nat) (st st' : ToolState)
    (h : computeShimmedB0Map nm idx st = .ok st') :
    (∀ r j p, j ≠ idx → shimmedVal st' r j p = shimmedVal st r j p) ∧
    (∀ r p, shimmedVal st' r idx p = nm.data r idx p) := by
  unfold computeShimmedB0Map at h
  have hs := applyMask_shimmed _ _ h
  constructor
  · intro r j p hj
    unfold shimmedVal
    rw [hs]
    simp only []
    rw [if_neg hj]
    cases st.shimmedB0Map <;> rfl
  · intro r p
    unfold shimmedVal
    rw [hs]
    simp

lemma computeShimmedB0Map_ok (nm : B0Map) (idx : Nat) (st : ToolState)
    (fm : Mask) (hfm : st.finalMask = some fm) :
    ∃ st', computeShimmedB0Map nm idx st = .ok st' := by
  unfold computeShimmedB0Map applyMask
  simp only [hfm]
  exact ⟨_, rfl⟩

lemma shimmedVal_clear (st : ToolState) (r j p : Nat) :
    shimmedVal { st with imagesReady := false, readyEvent := false } r j p =
      shimmedVal st r j p := rfl

lemma shimmedLoop_frame (env : Env) :
    ∀ (l : List Nat) (st st' : ToolState),
      shimmedLoop env l st = .ok st' →
      ∀ j, j ∉ l → ∀ r p, shimmedVal st' r j p = shimmedVal st r j p := by
  intro l
  induction l with
  | nil =>
    intro st st' h j hj r p
    unfold shimmedLoop at h
    injection h with h'
    rw [h']
  | cons idx rest ih =>
    intro st st' h j hj r p
    have hjidx : j ≠ idx := by
      intro hEq
      exact hj (hEq ▸ List.mem_cons_self idx rest)
    have hjrest : j ∉ rest := fun hmem => hj (List.mem_cons_of_mem idx hmem)
    unfold shimmedLoop at h
    split at h
    · rename_i st1 t hc
      have h10 : st1.shimmedB0Map = st.shimmedB0Map := by
        have hf := (countScans_frame (env.shimmedCount idx) 2 st).2.2.2
        rw [hc] at hf
        exact hf
      split at h
      · rename_i st2 hcs
        split at h
        · rename_i st3 hev
          rw [ih st3 st' h j hjrest r p]
          have h32 : shimmedVal st3 r j p = shimmedVal st2 r j p := by
            unfold shimmedVal
            rw [evaluateShimImages_shimmed env st2 st3 hev]
          have h21 : shimmedVal st2 r j p = shimmedVal st1 r j p :=
            (computeShimmedB0Map_frame _ _ _ _ hcs).1 r j p hjidx
          have h10v : shimmedVal st1 r j p = shimmedVal st r j p := by
            unfold shimmedVal
            rw [h10]
          rw [h32, h21, h10v]
        · exact Except.noConfusion h
      · exact Except.noConfusion h
    · rename_i st1 t hc
      have h10 : st1.shimmedB0Map = st.shimmedB0Map := by
        have hf := (countScans_frame (env.shimmedCount idx) 2 st).2.2.2
        rw [hc] at hf
        exact hf
      rw [ih _ st' h j hjrest r p, shimmedVal_clear]
      unfold shimmedVal
      rw [h10]

/-- C9: recording a shimmed field-map result for slice `idx` writes only
slice `idx` of the slice-wise shimmed map — every other slice keeps its
previous value (NaN when never scanned, since the map starts NaN-filled) —
and consequently, across the per-slice loop of `doAllShimmedScans`, every
slice index outside the processed list keeps its recorded data unchanged
whatever mixture of per-slice successes and failures occurs. -/
theorem shimmed_slice_frame (env : Env) :
    (∀ (newMap : B0Map) (idx : Nat) (st : ToolState) (fm : Mask),
      st.finalMask = some fm →
      ∃ st', computeShimmedB0Map newMap idx st = .ok st' ∧
        (∀ r j p, j ≠ idx → shimmedVal st' r j p = shimmedVal st r j p) ∧
        (∀ r p, shimmedVal st' r idx p = newMap.data r idx p)) ∧
    (∀ (l : List Nat) (st st' : ToolState),
      shimmedLoop env l st = .ok st' →
      ∀ j, j ∉ l → ∀ r p, shimmedVal st' r j p = shimmedVal st r j p) := by
  constructor
  · intro nm idx st fm hfm
    obtain ⟨st', hok⟩ := computeShimmedB0Map_ok nm idx st fm hfm
    exact ⟨st', hok, (computeShimmedB0Map_frame nm idx st st' hok).1,
      (computeShimmedB0Map_frame nm idx st st' hok).2⟩
  · exact shimmedLoop_frame env

/-- Witness for C9: recording slice 0 on a masked state, and an empty loop. -/
theorem shimmed_slice_frame_witness :
    maskedState.finalMask = some sampleMask ∧
    (∃ st', computeShimmedB0Map sampleB0 0 maskedState = .ok st' ∧
      (∀ r j p, j ≠ 0 → shimmedVal st' r j p = shimmedVal maskedState r j p) ∧
      (∀ r p, shimmedVal st' r 0 p = sampleB0.data r 0 p)) ∧
    shimmedVal freshState 0 1 0 = shimmedVal freshState 0 1 0 :=
  ⟨rfl,
    (shimmed_slice_frame sampleEnv).1 sampleB0 0 maskedState sampleMask rfl,
    (shimmed_slice_frame sampleEnv).2 [] freshState freshState rfl 1
      (by simp) 0 0⟩
